import Mathlib

/-!
Verification of the Deriv_Copy_Trader repository.

This file embeds the relevant parts of the repository's Python sources as
Lean definitions and proves the spec's claims about them:

* `src/trade_bot.py` — `process_buy_transaction`, `process_sell_transaction`
  and the `contract_mapping` table (claims about the mapping invariant,
  idempotence on replayed buys, unmapped-sell handling and frame effects);
* `src/Deriv_Copy_Trader.py` — `calculate_scaled_lot_size` and
  `update_trade_parameters`;
* `src/copy_trading_bot.py` — `select_mt5_account`, the `_run_websocket`
  reconnect loop with `stop`, the keepalive loop, the two message handlers
  `on_source_message` / `on_destination_message`, and the replication
  guards `replicate_mt5_trade` / `replicate_mt5_order`.

Network calls are modelled by passing the venue's response in as data: a
call that the venue answers with an error carries `none` (or a `Bool`
flag), a successful answer carries the payload the Python code reads out
of the response.  Contract identifiers are `Nat`, monetary amounts are `ℚ`.
-/

/-! ## Model of `src/trade_bot.py` -/

/-- The fields of the `proposal_open_contract` response that
`process_buy_transaction` reads. -/
structure ContractDetails where
  buy_price : ℚ
  currency : String
  symbol : String
  contract_type : String
  duration : Nat
  duration_unit : String
  barrier : Option ℚ
  barrier2 : Option ℚ
  limit_order : Option ℚ
  deriving DecidableEq, Repr

/-- The `parameters` object of the `buy_contract` request built by
`process_buy_transaction`: required fields copied from the contract
details, `basis` fixed to `"stake"`, the optional fields copied when
present. -/
structure BuyParams where
  amount : ℚ
  currency : String
  symbol : String
  contract_type : String
  duration : Nat
  duration_unit : String
  basis : String
  barrier : Option ℚ
  barrier2 : Option ℚ
  limit_order : Option ℚ
  deriving DecidableEq, Repr

def mkBuyParams (cd : ContractDetails) : BuyParams :=
  { amount := cd.buy_price
    currency := cd.currency
    symbol := cd.symbol
    contract_type := cd.contract_type
    duration := cd.duration
    duration_unit := cd.duration_unit
    basis := "stake"
    barrier := cd.barrier
    barrier2 := cd.barrier2
    limit_order := cd.limit_order }

/-- A request issued on User B's (destination) connection by `trade_bot.py`. -/
inductive DestCall where
  | buy_contract (params : BuyParams)
  | sell_contract (contract_id : Nat) (price : ℚ)
  deriving DecidableEq, Repr

/-- One constructor per `logger.info` / `logger.error` call in
`process_buy_transaction` and `process_sell_transaction`. -/
inductive TradeLog where
  | newBuyDetected (contract_id_a : Nat)
  | errorGettingContract
  | replicationFailed
  | tradeReplicated (contract_id_a contract_id_b : Nat)
  | noMappedContract (contract_id_a : Nat)
  | processingSell (contract_id_a contract_id_b : Nat)
  | sellFailed
  | sellSuccess (contract_id_b : Nat)
  deriving DecidableEq, Repr

/-- Association-list lookup for the `contract_mapping` dict: the most
recent binding for a key shadows older ones. -/
def lookupA : List (Nat × Nat) → Nat → Option Nat
  | [], _ => none
  | p :: ps, a => if p.1 = a then some p.2 else lookupA ps a

/-- `del contract_mapping[a]`: remove every binding for key `a`. -/
def eraseA : List (Nat × Nat) → Nat → List (Nat × Nat)
  | [], _ => []
  | p :: t, a => if p.1 = a then eraseA t a else p :: eraseA t a

/-- State threaded through the `trade_bot.py` event loop.
`contract_mapping` is the module-level dict.  `dest_open` models the
destination venue: the multiset of destination contract ids whose
`buy_contract` call returned without error and for which no
`sell_contract` call has since returned without error.  `opens_issued`
records, per destination `buy_contract` request actually sent, the source
contract id that triggered it. -/
structure BotState where
  contract_mapping : List (Nat × Nat)
  dest_open : List Nat
  opens_issued : List Nat
  deriving DecidableEq, Repr

def initBot : BotState := ⟨[], [], []⟩

/-- `process_buy_transaction` from `src/trade_bot.py`.
`contract_resp` is the venue's answer to the `proposal_open_contract`
call (`none` when the response carries an `error` field); `buy_resp` is
the destination venue's answer to the `buy_contract` call (`none` on
error, otherwise the new destination contract id).  Returns the new
state, the requests issued on the destination connection, and the log
lines produced. -/
def process_buy_transaction (st : BotState) (contract_id_a : Nat)
    (contract_resp : Option ContractDetails) (buy_resp : Option Nat) :
    BotState × List DestCall × List TradeLog :=
  match contract_resp with
  | none => (st, [], [.newBuyDetected contract_id_a, .errorGettingContract])
  | some cd =>
    let params := mkBuyParams cd
    match buy_resp with
    | none =>
      ({ st with opens_issued := contract_id_a :: st.opens_issued },
       [.buy_contract params],
       [.newBuyDetected contract_id_a, .replicationFailed])
    | some contract_id_b =>
      ({ contract_mapping := (contract_id_a, contract_id_b) :: st.contract_mapping
         dest_open := contract_id_b :: st.dest_open
         opens_issued := contract_id_a :: st.opens_issued },
       [.buy_contract params],
       [.newBuyDetected contract_id_a, .tradeReplicated contract_id_a contract_id_b])

/-- `process_sell_transaction` from `src/trade_bot.py`.  `sell_ok` is
whether the destination venue's answer to the `sell_contract` call is
error-free; on success the destination contract closes and the mapping
entry is deleted. -/
def process_sell_transaction (st : BotState) (contract_id_a : Nat)
    (sell_price : ℚ) (sell_ok : Bool) :
    BotState × List DestCall × List TradeLog :=
  match lookupA st.contract_mapping contract_id_a with
  | none => (st, [], [.noMappedContract contract_id_a])
  | some contract_id_b =>
    if sell_ok then
      ({ contract_mapping := eraseA st.contract_mapping contract_id_a
         dest_open := st.dest_open.erase contract_id_b
         opens_issued := st.opens_issued },
       [.sell_contract contract_id_b sell_price],
       [.processingSell contract_id_a contract_id_b, .sellSuccess contract_id_b])
    else
      (st, [.sell_contract contract_id_b sell_price],
       [.processingSell contract_id_a contract_id_b, .sellFailed])

/-- One processed source transaction, with the venue responses it met. -/
inductive TxEvent where
  | buyTx (contract_id : Nat) (contract_resp : Option ContractDetails) (buy_resp : Option Nat)
  | sellTx (contract_id : Nat) (price : ℚ) (ok : Bool)
  deriving DecidableEq, Repr

def stepTx (st : BotState) : TxEvent → BotState
  | .buyTx a c r => (process_buy_transaction st a c r).1
  | .sellTx a p ok => (process_sell_transaction st a p ok).1

def runTx (st : BotState) (evs : List TxEvent) : BotState := evs.foldl stepTx st

/-! ## Model of `src/Deriv_Copy_Trader.py` -/

/-- `calculate_scaled_lot_size` from `src/Deriv_Copy_Trader.py`.  A
balance is `none` when the corresponding `get_account_balance` call
raises; any exception inside the `try` block (including the
`ZeroDivisionError` raised when the source balance is `0`) is caught and
the unscaled `lot_size` is returned. -/
def calculate_scaled_lot_size (lot_size : ℚ)
    (source_balance dest_balance : Option ℚ) : ℚ :=
  match source_balance, dest_balance with
  | some s, some d => if s = 0 then lot_size else lot_size * (d / s)
  | _, _ => lot_size

/-- Value of an `active_trades` entry in `DerivCopyTrader`: keyed by the
copied (destination) trade id. -/
structure TradeInfo where
  source_trade_id : Nat
  destination_token : String
  deriving DecidableEq, Repr

/-- A call issued on a destination client by `update_trade_parameters`. -/
inductive CopyCmd where
  | update_trade (trade_id : Nat) (destination_token : String)
  deriving DecidableEq, Repr

/-- `logger.info` calls made by `update_trade_parameters`. -/
inductive CopyLog where
  | tradeUpdated (upd_id : Nat)
  deriving DecidableEq, Repr

/-- `update_trade_parameters` from `src/Deriv_Copy_Trader.py`: walk
`active_trades` and, for every entry whose `source_trade_id` matches the
update's id, issue `update_trade` on that entry's destination client and
log `Trade updated`.  The table itself is never mutated. -/
def update_trade_parameters :
    List (Nat × TradeInfo) → Nat → List CopyCmd × List CopyLog
  | [], _ => ([], [])
  | e :: rest, upd_id =>
    let r := update_trade_parameters rest upd_id
    if e.2.source_trade_id = upd_id then
      (.update_trade e.1 e.2.destination_token :: r.1, .tradeUpdated upd_id :: r.2)
    else r

/-! ## Model of `src/copy_trading_bot.py` -/

/-- Python truthiness of an optional string (`if s:` is false for both
`None` and the empty string). -/
def truthyS : Option String → Bool
  | none => false
  | some s => s ≠ ""

/-- An entry of the `mt5_login_list` response as read by
`select_mt5_account`: the `login` field plus the two `rights` flags it
consults.  The flags are optional because the code reads them with
`rights.get("enabled", False)` and `rights.get("trade_disabled", True)`. -/
structure MT5Account where
  login : String
  enabled : Option Bool
  trade_disabled : Option Bool
  deriving DecidableEq, Repr

/-- Python's `s.endswith(suffix)`, computed on the underlying character
lists (extensionally the same test as `String.endsWith`, but it reduces
in the kernel). -/
def str_ends_with (s suffix : String) : Bool :=
  suffix.data.isSuffixOf s.data

/-- The first-try match test of `select_mt5_account`: the login equals
the target, equals the target with an `MTD`/`MTR` prefix, or ends with
the target. -/
def matches_target (login target : String) : Bool :=
  login == target || login == "MTD" ++ target || login == "MTR" ++ target
    || str_ends_with login target

/-- The second-try test of `select_mt5_account`: enabled and not
trade-disabled (missing flags default to disabled). -/
def account_allowed (a : MT5Account) : Bool :=
  (a.enabled.getD false) && !(a.trade_disabled.getD true)

/-- `select_mt5_account` from `src/copy_trading_bot.py`.  With a truthy
target, return the first account matching `matches_target` and `None`
when no account matches (the enabled-account scan is *not* reached in
that case); with no target (or an empty one), return the first account
passing `account_allowed`.  The `is_source` parameter of the source only
selects log wording and is omitted. -/
def select_mt5_account (accounts : List MT5Account)
    (target_account_number : Option String) : Option String :=
  if accounts.isEmpty then none
  else if truthyS target_account_number then
    match accounts.find? (fun acc =>
        matches_target acc.login (target_account_number.getD "")) with
    | some acc => some acc.login
    | none => none
  else
    (accounts.find? account_allowed).map (·.login)

/-- The `should_run` event plus the two WebSocketApp handles that
`stop()` closes. -/
structure EngineState where
  should_run : Bool
  source_ws_closed : Bool
  destination_ws_closed : Bool
  deriving DecidableEq, Repr

def initEngine : EngineState := ⟨true, false, false⟩

/-- `stop` from `src/copy_trading_bot.py`: clear `should_run` and close
both WebSocket connections. -/
def stop (st : EngineState) : EngineState :=
  { st with should_run := false, source_ws_closed := true,
            destination_ws_closed := true }

/-- Configuration constants set in `__init__`. -/
def connection_retries : Nat := 3
def retry_delay : Nat := 5
def reconnect_delay : Nat := 5
def ping_interval : Nat := 15

/-- How one `run_forever` invocation ends: a normal return (the session
may or may not have actually connected first — the loop cannot tell,
which is why `connected` is carried but never read), a
`WebSocketException`, or any other exception. -/
inductive SessionEnd where
  | normal (connected : Bool)
  | wsError
  | otherError
  deriving DecidableEq, Repr

/-- Externally visible actions of the reconnect/keepalive loops. -/
inductive WsAction where
  | delaySleep (secs : Nat)
  | engineStop
  | pingSend
  deriving DecidableEq, Repr

/-- The local `retries` counter of `_run_websocket` together with the
engine state it reads and (through `stop`) writes. -/
structure LoopState where
  engine : EngineState
  retries : Nat
  deriving DecidableEq, Repr

/-- `_run_websocket` from `src/copy_trading_bot.py`, driven by the list
of successive `run_forever` outcomes.  On a normal return with
`should_run` still set, the counter increments; while it is within
`connection_retries` the loop sleeps `retry_delay * retries` and retries,
otherwise it calls `stop()` and breaks.  The two exception branches sleep
`reconnect_delay` and loop without touching the counter. -/
def run_websocket_loop : LoopState → List SessionEnd → LoopState × List WsAction
  | ls, [] => (ls, [])
  | ls, s :: rest =>
    if ls.engine.should_run then
      match s with
      | .normal _ =>
        if ls.engine.should_run then
          let r := ls.retries + 1
          if r ≤ connection_retries then
            let res := run_websocket_loop ⟨ls.engine, r⟩ rest
            (res.1, WsAction.delaySleep (retry_delay * r) :: res.2)
          else
            (⟨stop ls.engine, r⟩, [WsAction.engineStop])
        else (ls, [])
      | .wsError =>
        let res := run_websocket_loop ls rest
        (res.1, WsAction.delaySleep reconnect_delay :: res.2)
      | .otherError =>
        let res := run_websocket_loop ls rest
        (res.1, WsAction.delaySleep reconnect_delay :: res.2)
    else (ls, [])

/-- One iteration of `keep_alive_ping`: while `should_run` is set, send a
ping whenever the socket is connected; once `should_run` is cleared the
loop body is never entered again and nothing is sent. -/
def keep_alive_iteration (st : EngineState) (sock_connected : Bool) : List WsAction :=
  if st.should_run then
    (if sock_connected then [WsAction.pingSend] else [])
  else []

/-- Connection-level state read and written by the two message handlers
of `DerivMT5CopyTradingBot`. -/
structure MT5BotState where
  should_run : Bool
  source_ws : Bool
  destination_ws : Bool
  source_account_number : Option String
  destination_account_number : Option String
  deriving DecidableEq, Repr

/-- The duck-typed position/order/transaction dictionary consumed by
`replicate_mt5_trade` and `replicate_mt5_order` (plus the `action` and
`contract_type` keys the transaction dispatch of `on_source_message`
reads from the same dictionary).  The keys accessed with plain indexing
(`symbol`, `type`, `volume`, `price`) are modelled as present; keys read
through `.get` are `Option`s. -/
structure MT5Position where
  symbol : String
  type : String
  volume : ℚ
  price : ℚ
  action : Option String
  contract_type : Option String
  price_open : Option ℚ
  sl : Option ℚ
  tp : Option ℚ
  deriving DecidableEq, Repr

/-- Requests sent by `DerivMT5CopyTradingBot` on one of its sockets.
`mt5_new_order_position` is the request dict built in
`replicate_mt5_trade`, `mt5_new_order_pending` the one built in
`replicate_mt5_order` (both carry `"mt5_new_order": 1` on the wire but
have different fields). -/
inductive WsRequest where
  | authorize_req (token : String)
  | mt5_login_list_req
  | subscribe_transactions (loginid : String)
  | mt5_new_order_position (login symbol : String) (otype : String)
      (volume price : ℚ) (action : String) (time_in_force : String)
      (requestID : Nat)
  | mt5_new_order_pending (login symbol : String) (otype : String)
      (volume : ℚ) (price : ℚ) (sl tp : ℚ)
  deriving DecidableEq, Repr

/-- A send, tagged with the socket it goes out on. -/
inductive BotSend where
  | toSource (r : WsRequest)
  | toDestination (r : WsRequest)
  deriving DecidableEq, Repr

/-- One constructor per `logger.info` / `logger.error` call in the
embedded methods of `DerivMT5CopyTradingBot` (the always-on
`print` / `logger.debug` tracing is not modelled). -/
inductive BotLog where
  | sourceAuthorized
  | destinationAuthorized
  | requestingAccounts (is_source : Bool)
  | sourceAccountsFound
  | destinationAccountsFound
  | selectedAccount (login : String)
  | targetAccountNotFound
  | noAccountsFound
  | noSuitableAccount
  | failedSelectSource
  | failedSelectDest
  | accountDetailsUnavailable
  | subscribedPositions (loginid : String)
  | subscribedOrders (loginid : String)
  | gotPositions
  | ordersUpdate
  | destConnectionUnavailable
  | destAccountNotSet
  | attemptingReplicate
  | sendingTradeRequest
  | tradeRequestSent (symbol : String)
  | sendingOrderRequest
  | orderRequestSent (symbol : String)
  | tradeReplicationFailed (msg : String)
  | tradeReplicatedOk
  deriving DecidableEq, Repr

/-- `get_mt5_accounts`: send an `mt5_login_list` request on the given
side's socket. -/
def get_mt5_accounts (is_source : Bool) : List BotSend × List BotLog :=
  ([if is_source then .toSource .mt5_login_list_req
    else .toDestination .mt5_login_list_req],
   [.requestingAccounts is_source])

/-- `subscribe_to_mt5_trades`: guard on a truthy source account number,
then send the two (identical) transaction-subscribe requests. -/
def subscribe_to_mt5_trades (st : MT5BotState) : List BotSend × List BotLog :=
  if truthyS st.source_account_number = false then
    ([], [.accountDetailsUnavailable])
  else
    let login := st.source_account_number.getD ""
    ([.toSource (.subscribe_transactions login),
      .toSource (.subscribe_transactions login)],
     [.subscribedPositions login, .subscribedOrders login])

/-- `replicate_mt5_trade` from `src/copy_trading_bot.py`: refuse (with an
error log, returning normally) when the destination socket is absent or
the destination account number is falsy; otherwise send one
`mt5_new_order` request on the destination socket.  `requestID` stands
for `str(int(time.time()))`. -/
def replicate_mt5_trade (st : MT5BotState) (position : MT5Position)
    (requestID : Nat) : List BotSend × List BotLog :=
  if st.destination_ws = false then
    ([], [.destConnectionUnavailable])
  else if truthyS st.destination_account_number = false then
    ([], [.destAccountNotSet])
  else
    ([.toDestination (.mt5_new_order_position
        (st.destination_account_number.getD "") position.symbol position.type
        position.volume position.price (position.action.getD "buy") "GTC"
        requestID)],
     [.attemptingReplicate, .sendingTradeRequest, .tradeRequestSent position.symbol])

/-- `replicate_mt5_order` from `src/copy_trading_bot.py`: same guards as
`replicate_mt5_trade`; the price is `order.get("price_open",
order.get("price"))` and `sl`/`tp` default to `0`. -/
def replicate_mt5_order (st : MT5BotState) (order : MT5Position) :
    List BotSend × List BotLog :=
  if st.destination_ws = false then
    ([], [.destConnectionUnavailable])
  else if truthyS st.destination_account_number = false then
    ([], [.destAccountNotSet])
  else
    ([.toDestination (.mt5_new_order_pending
        (st.destination_account_number.getD "") order.symbol order.type
        order.volume (order.price_open.getD order.price) (order.sl.getD 0)
        (order.tp.getD 0))],
     [.sendingOrderRequest, .orderRequestSent order.symbol])

/-- A parsed message on the source connection, with one field per
dictionary key `on_source_message` inspects.  `authorize = some b` means
the key is present with truthiness `b`; `transaction`,
`mt5_get_positions` and `mt5_get_orders` are `some _` when present and
truthy (the code tests them with `data.get(...)` / `if positions:`).
The `error` field of a failed-authorization response is never read by
this handler. -/
structure SourceMsg where
  authorize : Option Bool
  mt5_login_list : Option (List MT5Account)
  transaction : Option MT5Position
  mt5_get_positions : Option (List MT5Position)
  mt5_get_orders : Option (List MT5Position)
  error : Option String
  deriving Repr

/-- The `trade_type in ['buy', 'sell', 'create', 'update', 'delete']`
test of the transaction branch. -/
def known_trade_type : Option String → Bool
  | none => false
  | some a => a == "buy" || a == "sell" || a == "create" || a == "update" || a == "delete"

/-- `on_source_message` from `src/copy_trading_bot.py`: dispatch on the
message fields in the source's `if`/`elif` order, returning the updated
bot state, the sends and the logs. -/
def on_source_message (st : MT5BotState) (data : SourceMsg) (requestID : Nat) :
    MT5BotState × List BotSend × List BotLog :=
  if data.authorize = some true then
    let gm := get_mt5_accounts true
    (st, gm.1, BotLog.sourceAuthorized :: gm.2)
  else match data.mt5_login_list with
  | some accounts =>
    let resolved := select_mt5_account accounts st.source_account_number
    let st' := { st with source_account_number := resolved }
    if truthyS resolved then
      let sub := subscribe_to_mt5_trades st'
      (st', sub.1, BotLog.sourceAccountsFound :: sub.2)
    else
      (st', [], [BotLog.sourceAccountsFound, BotLog.failedSelectSource])
  | none =>
    match data.transaction with
    | some tx =>
      if known_trade_type tx.action then
        if tx.contract_type = some "position" then
          let r := replicate_mt5_trade st tx requestID
          (st, r.1, r.2)
        else if tx.contract_type = some "order" then
          let r := replicate_mt5_order st tx
          (st, r.1, r.2)
        else (st, [], [])
      else (st, [], [])
    | none =>
      match data.mt5_get_positions with
      | some positions =>
        if positions.isEmpty then (st, [], [])
        else
          let rs := positions.map (fun p => replicate_mt5_trade st p requestID)
          (st, (rs.map (·.1)).flatten, BotLog.gotPositions :: (rs.map (·.2)).flatten)
      | none =>
        match data.mt5_get_orders with
        | some orders =>
          if orders.isEmpty then (st, [], [])
          else
            let rs := orders.map (fun o => replicate_mt5_order st o)
            (st, (rs.map (·.1)).flatten, BotLog.ordersUpdate :: (rs.map (·.2)).flatten)
        | none => (st, [], [])

/-- A parsed message on the destination connection, with one field per
dictionary key `on_destination_message` inspects; `mt5_new_order = some
()` means the key is present. -/
structure DestinationMsg where
  authorize : Option Bool
  mt5_login_list : Option (List MT5Account)
  mt5_new_order : Option Unit
  error : Option String
  deriving Repr

/-- `on_destination_message` from `src/copy_trading_bot.py`. -/
def on_destination_message (st : MT5BotState) (data : DestinationMsg) :
    MT5BotState × List BotSend × List BotLog :=
  if data.authorize = some true then
    let gm := get_mt5_accounts false
    (st, gm.1, BotLog.destinationAuthorized :: gm.2)
  else match data.mt5_login_list with
  | some accounts =>
    let resolved := select_mt5_account accounts st.destination_account_number
    let st' := { st with destination_account_number := resolved }
    if truthyS resolved then
      (st', [], [BotLog.destinationAccountsFound])
    else
      (st', [], [BotLog.destinationAccountsFound, BotLog.failedSelectDest])
  | none =>
    match data.mt5_new_order with
    | some _ =>
      match data.error with
      | some m => (st, [], [BotLog.tradeReplicationFailed m])
      | none => (st, [], [BotLog.tradeReplicatedOk])
    | none => (st, [], [])

/-! ## Helper definitions for the proofs -/

/-- Number of mapping entries whose destination id is `b`. -/
def countTo (l : List (Nat × Nat)) (b : Nat) : Nat :=
  l.countP (fun q => q.2 == b)

/-- The inductive invariant connecting the mapping table to the modelled
destination venue: no destination id is the target of more mapping
entries than it has open destination contracts. -/
def MappingInv (st : BotState) : Prop :=
  ∀ b, countTo st.contract_mapping b ≤ st.dest_open.count b

/-! ## Helper lemmas -/

lemma countTo_nil (b : Nat) : countTo [] b = 0 := rfl

lemma countTo_cons (p : Nat × Nat) (t : List (Nat × Nat)) (b : Nat) :
    countTo (p :: t) b = countTo t b + (if p.2 = b then 1 else 0) := by
  simp [countTo, List.countP_cons]

lemma countTo_eraseA_le (l : List (Nat × Nat)) (a b : Nat) :
    countTo (eraseA l a) b ≤ countTo l b := by
  induction l with
  | nil => simp [countTo, eraseA]
  | cons p t ih =>
    by_cases h : p.1 = a
    · rw [show eraseA (p :: t) a = eraseA t a by simp [eraseA, h], countTo_cons]
      omega
    · rw [show eraseA (p :: t) a = p :: eraseA t a by simp [eraseA, h],
        countTo_cons, countTo_cons]
      omega

lemma lookupA_countTo_lt (l : List (Nat × Nat)) (a b : Nat)
    (h : lookupA l a = some b) : countTo (eraseA l a) b + 1 ≤ countTo l b := by
  induction l with
  | nil => simp [lookupA] at h
  | cons p t ih =>
    by_cases hp : p.1 = a
    · have hv : p.2 = b := by
        simp [lookupA, hp] at h; exact h
      have he : eraseA (p :: t) a = eraseA t a := by
        simp [eraseA, hp]
      rw [he, countTo_cons, if_pos hv]
      have := countTo_eraseA_le t a b
      omega
    · have hr : lookupA t a = some b := by
        simpa [lookupA, hp] using h
      have he : eraseA (p :: t) a = p :: eraseA t a := by
        simp [eraseA, hp]
      rw [he, countTo_cons, countTo_cons]
      have := ih hr
      omega

lemma lookupA_countTo_pos (l : List (Nat × Nat)) (a b : Nat)
    (h : lookupA l a = some b) : 0 < countTo l b := by
  have := lookupA_countTo_lt l a b h
  omega

lemma mappingInv_init : MappingInv initBot := by
  intro b; simp [initBot, countTo]

lemma mappingInv_step (st : BotState) (e : TxEvent) (h : MappingInv st) :
    MappingInv (stepTx st e) := by
  cases e with
  | buyTx a c r =>
    cases c with
    | none => exact h
    | some cd =>
      cases r with
      | none => exact h
      | some idb =>
        intro b
        show countTo ((a, idb) :: st.contract_mapping) b ≤
          (idb :: st.dest_open).count b
        rw [countTo_cons, List.count_cons]
        have := h b
        by_cases hb : idb = b
        · simp [hb]; omega
        · simp [hb, Ne.symm hb]; omega
  | sellTx a p ok =>
    show MappingInv (process_sell_transaction st a p ok).1
    cases hl : lookupA st.contract_mapping a with
    | none => simpa [process_sell_transaction, hl] using h
    | some idb =>
      cases hok : ok with
      | false => simpa [process_sell_transaction, hl] using h
      | true =>
        intro b
        simp only [process_sell_transaction, hl]
        show countTo (eraseA st.contract_mapping a) b ≤
          (st.dest_open.erase idb).count b
        by_cases hb : b = idb
        · subst hb
          have h1 := lookupA_countTo_lt st.contract_mapping a b hl
          have h2 := h b
          have h3 : (st.dest_open.erase b).count b = st.dest_open.count b - 1 :=
            List.count_erase_self ..
          omega
        · have h1 := countTo_eraseA_le st.contract_mapping a b
          have h2 := h b
          have h3 : (st.dest_open.erase idb).count b = st.dest_open.count b :=
            List.count_erase_of_ne hb _
          omega

lemma mappingInv_run (evs : List TxEvent) :
    ∀ st, MappingInv st → MappingInv (runTx st evs) := by
  induction evs with
  | nil => intro st h; exact h
  | cons e t ih =>
    intro st h
    exact ih (stepTx st e) (mappingInv_step st e h)

lemma mapping_entry_open (evs : List TxEvent) (a b : Nat)
    (h : lookupA (runTx initBot evs).contract_mapping a = some b) :
    b ∈ (runTx initBot evs).dest_open := by
  have hinv := mappingInv_run evs initBot mappingInv_init
  have h1 := lookupA_countTo_pos _ a b h
  have h2 := hinv b
  have : 0 < (runTx initBot evs).dest_open.count b := by omega
  exact List.count_pos_iff.mp this

lemma lookupA_eraseA_self (l : List (Nat × Nat)) (a : Nat) :
    lookupA (eraseA l a) a = none := by
  induction l with
  | nil => rfl
  | cons p t ih =>
    by_cases h : p.1 = a
    · simpa [eraseA, h] using ih
    · simpa [eraseA, h, lookupA] using ih

lemma lookupA_eraseA_ne (l : List (Nat × Nat)) (a x : Nat) (h : x ≠ a) :
    lookupA (eraseA l a) x = lookupA l x := by
  induction l with
  | nil => rfl
  | cons p t ih =>
    by_cases hp : p.1 = a
    · have hx : p.1 ≠ x := by omega
      simp [eraseA, hp, lookupA, hx, ih, Ne.symm h]
    · by_cases hx : p.1 = x
      · simp [eraseA, hp, lookupA, hx, h]
      · simp [eraseA, hp, lookupA, hx, ih]

/-! ## Claims -/

/-- C1: For every sequence of processed source transactions, every
`contract_mapping` entry points at a destination contract that is
currently open on the destination venue; an entry is created only when
the destination's `buy_contract` response is error-free (an error
response, or a failed contract fetch, leaves the table unchanged), and a
confirmed close deletes the entry for that source contract id. -/
theorem C1_mapping_invariant :
    (∀ evs a b, lookupA (runTx initBot evs).contract_mapping a = some b →
        b ∈ (runTx initBot evs).dest_open)
    ∧ (∀ st a r, (process_buy_transaction st a none r).1 = st)
    ∧ (∀ st a cd, (process_buy_transaction st a (some cd) none).1.contract_mapping
        = st.contract_mapping)
    ∧ (∀ st a fetch r x y,
        lookupA (process_buy_transaction st a fetch r).1.contract_mapping x = some y →
        lookupA st.contract_mapping x = some y ∨ (x = a ∧ r = some y))
    ∧ (∀ st a p b, lookupA st.contract_mapping a = some b →
        lookupA (process_sell_transaction st a p true).1.contract_mapping a = none) := by
  refine ⟨mapping_entry_open, fun st a r => rfl, fun st a cd => rfl, ?_, ?_⟩
  · intro st a fetch r x y h
    cases fetch with
    | none => exact Or.inl h
    | some cd =>
      cases r with
      | none => exact Or.inl h
      | some idb =>
        by_cases hax : a = x
        · subst hax
          right
          refine ⟨rfl, ?_⟩
          simpa [process_buy_transaction, lookupA] using h
        · left
          simpa [process_buy_transaction, lookupA, hax] using h
  · intro st a p b h
    simp only [process_sell_transaction, h, if_pos]
    exact lookupA_eraseA_self st.contract_mapping a

/-- Witness for C1 at a concrete trace: one successful buy replication
maps source contract 1 to destination contract 10, which is then open. -/
theorem C1_mapping_invariant_witness :
    lookupA (runTx initBot
        [TxEvent.buyTx 1 (some ⟨2, "USD", "R_100", "CALL", 5, "t", none, none, none⟩)
          (some 10)]).contract_mapping 1 = some 10
    ∧ 10 ∈ (runTx initBot
        [TxEvent.buyTx 1 (some ⟨2, "USD", "R_100", "CALL", 5, "t", none, none, none⟩)
          (some 10)]).dest_open :=
  ⟨by decide,
   C1_mapping_invariant.1
     [TxEvent.buyTx 1 (some ⟨2, "USD", "R_100", "CALL", 5, "t", none, none, none⟩)
       (some 10)] 1 10 (by decide)⟩

/-- C2 counterexample: `process_buy_transaction` never consults the
mapping table before issuing the destination `buy_contract` call.
Replaying the buy for source contract 1 (already mapped to destination
10 by the first event) issues a second destination open, so the trace
carries two issued opens, not one as the claim states. -/
theorem C2_replay_counterexample :
    (runTx initBot
      [TxEvent.buyTx 1 (some ⟨2, "USD", "R_100", "CALL", 5, "t", none, none, none⟩) (some 10),
       TxEvent.buyTx 1 (some ⟨2, "USD", "R_100", "CALL", 5, "t", none, none, none⟩) (some 11)]
      ).opens_issued.length = 2
    ∧ (2 : Nat) ≠ 1 := by
  constructor
  · decide
  · decide

/-- C2 (amended): the mapper does not check mapping existence before
issuing the destination open.  Even when the source contract id is
already mapped, a replayed buy event with a successful contract fetch
issues one more destination `buy_contract` command, records one more
issued open, and overwrites the mapping entry with the new destination
id. -/
theorem C2_no_mapping_check :
    ∀ (st : BotState) (a b : Nat) (cd : ContractDetails) (idb : Nat),
      lookupA st.contract_mapping a = some b →
      (process_buy_transaction st a (some cd) (some idb)).2.1
          = [DestCall.buy_contract (mkBuyParams cd)]
      ∧ (process_buy_transaction st a (some cd) (some idb)).1.opens_issued
          = a :: st.opens_issued
      ∧ lookupA (process_buy_transaction st a (some cd) (some idb)).1.contract_mapping a
          = some idb := by
  intro st a b cd idb _h
  refine ⟨rfl, rfl, ?_⟩
  simp [process_buy_transaction, lookupA]

/-- Witness for C2 (amended) at a concrete already-mapped state. -/
theorem C2_no_mapping_check_witness :
    lookupA (BotState.mk [(1, 10)] [10] [1]).contract_mapping 1 = some 10
    ∧ (process_buy_transaction (BotState.mk [(1, 10)] [10] [1]) 1
        (some ⟨2, "USD", "R_100", "CALL", 5, "t", none, none, none⟩) (some 11)).2.1
        = [DestCall.buy_contract
            (mkBuyParams ⟨2, "USD", "R_100", "CALL", 5, "t", none, none, none⟩)]
    ∧ (process_buy_transaction (BotState.mk [(1, 10)] [10] [1]) 1
        (some ⟨2, "USD", "R_100", "CALL", 5, "t", none, none, none⟩) (some 11)).1.opens_issued
        = 1 :: [1]
    ∧ lookupA (process_buy_transaction (BotState.mk [(1, 10)] [10] [1]) 1
        (some ⟨2, "USD", "R_100", "CALL", 5, "t", none, none, none⟩)
        (some 11)).1.contract_mapping 1 = some 11 :=
  ⟨by decide,
   (C2_no_mapping_check (BotState.mk [(1, 10)] [10] [1]) 1 10
     ⟨2, "USD", "R_100", "CALL", 5, "t", none, none, none⟩ 11 (by decide)).1,
   (C2_no_mapping_check (BotState.mk [(1, 10)] [10] [1]) 1 10
     ⟨2, "USD", "R_100", "CALL", 5, "t", none, none, none⟩ 11 (by decide)).2.1,
   (C2_no_mapping_check (BotState.mk [(1, 10)] [10] [1]) 1 10
     ⟨2, "USD", "R_100", "CALL", 5, "t", none, none, none⟩ 11 (by decide)).2.2⟩

/-- C10: each buy or sell processing step touches at most the mapping
entry keyed by its own source contract id: mappings for other keys are
preserved verbatim; a destination error on a buy leaves the table
unchanged, a destination error on a sell leaves the whole state
unchanged, a successful buy (re)binds exactly its own key, and a
successful sell removes exactly its own key. -/
theorem C10_frame_effects :
    (∀ st a fetch r x, x ≠ a →
        lookupA (process_buy_transaction st a fetch r).1.contract_mapping x
          = lookupA st.contract_mapping x)
    ∧ (∀ st a p ok x, x ≠ a →
        lookupA (process_sell_transaction st a p ok).1.contract_mapping x
          = lookupA st.contract_mapping x)
    ∧ (∀ st a cd, (process_buy_transaction st a (some cd) none).1.contract_mapping
        = st.contract_mapping)
    ∧ (∀ st a p b, lookupA st.contract_mapping a = some b →
        (process_sell_transaction st a p false).1 = st)
    ∧ (∀ st a cd idb,
        lookupA (process_buy_transaction st a (some cd) (some idb)).1.contract_mapping a
          = some idb)
    ∧ (∀ st a p b, lookupA st.contract_mapping a = some b →
        lookupA (process_sell_transaction st a p true).1.contract_mapping a = none) := by
  refine ⟨?_, ?_, fun st a cd => rfl, ?_, ?_, ?_⟩
  · intro st a fetch r x hx
    cases fetch with
    | none => rfl
    | some cd =>
      cases r with
      | none => rfl
      | some idb =>
        simp [process_buy_transaction, lookupA, Ne.symm hx]
  · intro st a p ok x hx
    cases hl : lookupA st.contract_mapping a with
    | none => simp [process_sell_transaction, hl]
    | some idb =>
      cases ok with
      | false => simp [process_sell_transaction, hl]
      | true =>
        simp only [process_sell_transaction, hl, if_pos]
        exact lookupA_eraseA_ne st.contract_mapping a x hx
  · intro st a p b h
    simp [process_sell_transaction, h]
  · intro st a cd idb
    simp [process_buy_transaction, lookupA]
  · intro st a p b h
    simp only [process_sell_transaction, h, if_pos]
    exact lookupA_eraseA_self st.contract_mapping a

/-- Witness for C10 at a concrete input: a buy for contract 1 leaves the
entry for contract 2 untouched. -/
theorem C10_frame_effects_witness :
    (2 : Nat) ≠ 1
    ∧ lookupA (process_buy_transaction (BotState.mk [(2, 20)] [20] [2]) 1
        (some ⟨2, "USD", "R_100", "CALL", 5, "t", none, none, none⟩)
        (some 10)).1.contract_mapping 2
      = lookupA (BotState.mk [(2, 20)] [20] [2]).contract_mapping 2 :=
  ⟨by decide,
   C10_frame_effects.1 (BotState.mk [(2, 20)] [20] [2]) 1
     (some ⟨2, "USD", "R_100", "CALL", 5, "t", none, none, none⟩) (some 10) 2
     (by decide)⟩

lemma find?_none_of_all_false {α : Type} (p : α → Bool) :
    ∀ l : List α, (∀ a ∈ l, p a = false) → l.find? p = none := by
  intro l
  induction l with
  | nil => intro _; rfl
  | cons x t ih =>
    intro h
    have hx := h x (List.mem_cons_self x t)
    simp only [List.find?_cons, hx, cond_false]
    exact ih fun a ha => h a (List.mem_cons_of_mem _ ha)

lemma find?_first {α : Type} (p : α → Bool) :
    ∀ (pre : List α) (acc : α) (post : List α),
      (∀ a ∈ pre, p a = false) → p acc = true →
      (pre ++ acc :: post).find? p = some acc := by
  intro pre
  induction pre with
  | nil =>
    intro acc post _ hp
    simp [List.find?_cons, hp]
  | cons x t ih =>
    intro acc post h hp
    have hx := h x (List.mem_cons_self x t)
    simp only [List.cons_append, List.find?_cons, hx, cond_false]
    exact ih acc post (fun a ha => h a (List.mem_cons_of_mem _ ha)) hp

/-- C3 counterexample: with target `"555"` and a single enabled,
trade-allowed account `MTR900`, the target matches nothing and
`select_mt5_account` returns `None` — it does *not* fall back to the
enabled-account scan as step (2) of the claim states, which would have
returned `MTR900`. -/
theorem C3_resolver_counterexample :
    select_mt5_account [⟨"MTR900", some true, some false⟩] (some "555") = none
    ∧ account_allowed ⟨"MTR900", some true, some false⟩ = true
    ∧ (none : Option String) ≠ some "MTR900" := by
  refine ⟨by decide, by decide, by decide⟩

/-- C3 (amended): with a (truthy) target, the first account whose login
equals the target, equals the target with an `MTD`/`MTR` prefix, or ends
with the target is returned, and if no account matches, resolution fails
with `None` without falling back to the enabled-account scan; only when
no target is provided is the first enabled, not trade-disabled account
returned.  In particular, target `"900"` against `[MTR900
enabled+tradeAllowed, MTD100 enabled+trade-disabled]` resolves to
`MTR900`, and with no target the first enabled and trade-allowed account
is returned, skipping `MTD100`. -/
theorem C3_account_resolution :
    (∀ (pre : List MT5Account) (acc : MT5Account) (post : List MT5Account) (t : String),
        t ≠ "" → (∀ a ∈ pre, matches_target a.login t = false) →
        matches_target acc.login t = true →
        select_mt5_account (pre ++ acc :: post) (some t) = some acc.login)
    ∧ (∀ (accounts : List MT5Account) (t : String),
        t ≠ "" → (∀ a ∈ accounts, matches_target a.login t = false) →
        select_mt5_account accounts (some t) = none)
    ∧ (∀ (pre : List MT5Account) (acc : MT5Account) (post : List MT5Account),
        (∀ a ∈ pre, account_allowed a = false) → account_allowed acc = true →
        select_mt5_account (pre ++ acc :: post) none = some acc.login)
    ∧ select_mt5_account
        [⟨"MTR900", some true, some false⟩, ⟨"MTD100", some true, some true⟩]
        (some "900") = some "MTR900"
    ∧ select_mt5_account
        [⟨"MTD100", some true, some true⟩, ⟨"MTR900", some true, some false⟩]
        none = some "MTR900" := by
  refine ⟨?_, ?_, ?_, by decide, by decide⟩
  · intro pre acc post t ht hpre hacc
    have hfind := find?_first (fun a => matches_target a.login t) pre acc post hpre hacc
    simp [select_mt5_account, truthyS, ht, hfind]
  · intro accounts t ht hall
    have hfind := find?_none_of_all_false (fun a => matches_target a.login t) accounts hall
    by_cases he : accounts.isEmpty
    · simp [select_mt5_account, he]
    · simp [select_mt5_account, he, truthyS, ht, hfind]
  · intro pre acc post hpre hacc
    have hfind := find?_first account_allowed pre acc post hpre hacc
    have hne : ((pre ++ acc :: post).isEmpty) = false := by
      cases pre <;> simp
    simp [select_mt5_account, hne, truthyS, hfind]

/-- Witness for C3 (amended): target `"555"` matching nothing resolves
to `None` even though an enabled, trade-allowed account is present. -/
theorem C3_account_resolution_witness :
    ("555" : String) ≠ ""
    ∧ (∀ a ∈ [(⟨"MTR900", some true, some false⟩ : MT5Account)],
        matches_target a.login "555" = false)
    ∧ select_mt5_account [⟨"MTR900", some true, some false⟩] (some "555") = none :=
  ⟨by decide, by decide,
   C3_account_resolution.2.1 [⟨"MTR900", some true, some false⟩] "555"
     (by decide) (by decide)⟩

/-- C4: the scaled destination volume is `sourceVolume ×
(destinationBalance / sourceBalance)` whenever both balances were
fetched (and the source balance is non-zero, else the division raises
and the fallback applies); with volume 1, balances 1000 and 500 the
result is 1/2; and whenever either balance fetch fails the unscaled
source volume is returned. -/
theorem C4_scaled_volume :
    (∀ (lot s d : ℚ), s ≠ 0 →
        calculate_scaled_lot_size lot (some s) (some d) = lot * (d / s))
    ∧ calculate_scaled_lot_size 1 (some 1000) (some 500) = 1 / 2
    ∧ (∀ (lot : ℚ) (d : Option ℚ), calculate_scaled_lot_size lot none d = lot)
    ∧ (∀ (lot : ℚ) (s : Option ℚ), calculate_scaled_lot_size lot s none = lot) := by
  refine ⟨?_, ?_, ?_, ?_⟩
  · intro lot s d hs
    simp [calculate_scaled_lot_size, hs]
  · norm_num [calculate_scaled_lot_size]
  · intro lot d
    cases d <;> rfl
  · intro lot s
    cases s <;> rfl

/-- Witness for C4 at the spec's concrete numbers. -/
theorem C4_scaled_volume_witness :
    (1000 : ℚ) ≠ 0
    ∧ calculate_scaled_lot_size 1 (some 1000) (some 500) = 1 * (500 / 1000) :=
  ⟨by norm_num, C4_scaled_volume.1 1 1000 500 (by norm_num)⟩

/-- C8 counterexample: a Modify update for source trade 5, with an
`active_trades` table holding only an entry for source trade 7, issues
zero destination commands — but it also produces zero log entries, not
the exactly one log entry the claim requires. -/
theorem C8_unmapped_modify_counterexample :
    update_trade_parameters [(10, ⟨7, "tokB"⟩)] 5 = ([], [])
    ∧ (update_trade_parameters [(10, ⟨7, "tokB"⟩)] 5).2.length = 0
    ∧ (0 : Nat) ≠ 1 :=
  ⟨by decide, by decide, by decide⟩

lemma update_trade_parameters_no_match :
    ∀ (trades : List (Nat × TradeInfo)) (upd : Nat),
      (∀ e ∈ trades, e.2.source_trade_id ≠ upd) →
      update_trade_parameters trades upd = ([], []) := by
  intro trades upd
  induction trades with
  | nil => intro _; rfl
  | cons e t ih =>
    intro h
    have he : e.2.source_trade_id ≠ upd := h e (List.mem_cons_self e t)
    have ht := ih fun x hx => h x (List.mem_cons_of_mem _ hx)
    simp [update_trade_parameters, he, ht]

/-- C8 (amended): a Close event for an unmapped source contract id is a
no-op toward the destination (state unchanged, zero destination
commands) and produces exactly one log entry naming the unmapped trade;
a Modify event with no matching `active_trades` entry issues zero
destination commands and leaves the table untouched, but produces zero
log entries rather than one. -/
theorem C8_unmapped_events :
    (∀ st a p ok, lookupA st.contract_mapping a = none →
        process_sell_transaction st a p ok = (st, [], [TradeLog.noMappedContract a]))
    ∧ (∀ (trades : List (Nat × TradeInfo)) (upd : Nat),
        (∀ e ∈ trades, e.2.source_trade_id ≠ upd) →
        update_trade_parameters trades upd = ([], [])) := by
  constructor
  · intro st a p ok h
    simp [process_sell_transaction, h]
  · exact update_trade_parameters_no_match

/-- Witness for C8 (amended): a sell for unmapped contract 5 from the
initial state, and a modify for source trade 5 against a table holding
only source trade 7. -/
theorem C8_unmapped_events_witness :
    lookupA (BotState.mk [] [] []).contract_mapping 5 = none
    ∧ process_sell_transaction (BotState.mk [] [] []) 5 2 true
        = (BotState.mk [] [] [], [], [TradeLog.noMappedContract 5])
    ∧ update_trade_parameters [(10, ⟨7, "tokB"⟩)] 5 = ([], []) :=
  ⟨by decide,
   C8_unmapped_events.1 (BotState.mk [] [] []) 5 2 true (by decide),
   C8_unmapped_events.2 [(10, ⟨7, "tokB"⟩)] 5 (by decide)⟩

/-- C5: on session termination with shutdown not requested, the loop
retries with linearly increasing delay `retry_delay * attemptNumber` for
attempts 1..3; the fourth consecutive failure exceeds the budget and
calls `stop()`, clearing `should_run` and closing both connections,
after which the reconnect loop consumes no further sessions and the
keepalive loop sends nothing on either side. -/
theorem C5_reconnect_budget :
    (run_websocket_loop ⟨initEngine, 0⟩ (List.replicate 4 (SessionEnd.normal true))).2
      = [WsAction.delaySleep 5, WsAction.delaySleep 10, WsAction.delaySleep 15,
         WsAction.engineStop]
    ∧ (run_websocket_loop ⟨initEngine, 0⟩ (List.replicate 4 (SessionEnd.normal true))).1.engine
      = ⟨false, true, true⟩
    ∧ (∀ (ls : LoopState) (sess : List SessionEnd), ls.engine.should_run = false →
        run_websocket_loop ls sess = (ls, []))
    ∧ (∀ (e : EngineState) (c : Bool), e.should_run = false →
        keep_alive_iteration e c = [])
    ∧ (∀ k, k ≤ 3 →
        (run_websocket_loop ⟨initEngine, 0⟩ (List.replicate k (SessionEnd.normal true))).2
          = (List.range k).map (fun i => WsAction.delaySleep (retry_delay * (i + 1)))) := by
  refine ⟨by decide, by decide, ?_, ?_, ?_⟩
  · intro ls sess h
    cases sess with
    | nil => rfl
    | cons s rest => simp [run_websocket_loop, h]
  · intro e c h
    simp [keep_alive_iteration, h]
  · intro k hk
    interval_cases k <;> decide

/-- Witness for C5: the hypothesis-bearing conjuncts instantiated — a
stopped loop state consumes nothing, a stopped keepalive sends nothing,
and two failures produce delays 5 and 10. -/
theorem C5_reconnect_budget_witness :
    (LoopState.mk ⟨false, true, true⟩ 4).engine.should_run = false
    ∧ run_websocket_loop (LoopState.mk ⟨false, true, true⟩ 4) [SessionEnd.normal true]
        = (LoopState.mk ⟨false, true, true⟩ 4, [])
    ∧ keep_alive_iteration ⟨false, true, true⟩ true = []
    ∧ (run_websocket_loop ⟨initEngine, 0⟩ (List.replicate 2 (SessionEnd.normal true))).2
        = (List.range 2).map (fun i => WsAction.delaySleep (retry_delay * (i + 1))) :=
  ⟨rfl,
   C5_reconnect_budget.2.2.1 (LoopState.mk ⟨false, true, true⟩ 4)
     [SessionEnd.normal true] rfl,
   C5_reconnect_budget.2.2.2.1 ⟨false, true, true⟩ true rfl,
   C5_reconnect_budget.2.2.2.2 2 (by decide)⟩

/-- C6 counterexample: the retry counter is not reset by a successful
reconnect.  After two sessions that each connected successfully before
terminating, the counter is 2, not the 1 that reset-on-success would
give; and four successfully-reconnecting sessions exhaust the budget and
stop the engine, which could never happen if each success restored the
full budget of 3. -/
theorem C6_reset_counterexample :
    (run_websocket_loop ⟨initEngine, 0⟩
        [SessionEnd.normal true, SessionEnd.normal true]).1.retries = 2
    ∧ (2 : Nat) ≠ 1
    ∧ (run_websocket_loop ⟨initEngine, 0⟩
        (List.replicate 4 (SessionEnd.normal true))).1.engine.should_run = false :=
  ⟨by decide, by decide, by decide⟩

/-- C6 (amended): the attempt counter of the reconnect loop is
cumulative over the loop's lifetime: it is never reset, so after any
within-budget sequence of session terminations — whether or not the
intervening reconnections succeeded — the counter equals the total
number of terminations, and the fourth termination overall is fatal. -/
theorem C6_cumulative_retries :
    (∀ (bs : List Bool) (r : Nat), r + bs.length ≤ connection_retries →
        (run_websocket_loop ⟨initEngine, r⟩ (bs.map SessionEnd.normal)).1.retries
          = r + bs.length)
    ∧ (run_websocket_loop ⟨initEngine, 0⟩
        (List.replicate 4 (SessionEnd.normal true))).1.engine.should_run = false := by
  constructor
  · intro bs
    induction bs with
    | nil => intro r _h; rfl
    | cons b t ih =>
      intro r h
      have hr : r + 1 ≤ connection_retries := by
        simp only [List.length_cons] at h
        omega
      have ht : (r + 1) + t.length ≤ connection_retries := by
        simp only [List.length_cons] at h
        omega
      have step := ih (r + 1) ht
      simp only [List.map_cons, run_websocket_loop, initEngine, hr, if_pos,
        List.length_cons]
      simp only [initEngine] at step
      rw [step]
      omega
  · decide

/-- Witness for C6 (amended): two successfully-connecting sessions from
a fresh counter leave the counter at 2. -/
theorem C6_cumulative_retries_witness :
    0 + ([true, true] : List Bool).length ≤ connection_retries
    ∧ (run_websocket_loop ⟨initEngine, 0⟩
        ([true, true].map SessionEnd.normal)).1.retries = 0 + [true, true].length :=
  ⟨by decide, C6_cumulative_retries.1 [true, true] 0 (by decide)⟩

/-- C7 counterexample: a failed-authorization response (the `authorize`
key absent or falsy, as in an error reply) is silently ignored by
`on_source_message`: the state is returned unchanged — in particular
`should_run` stays `true` and no session is closed — so `stop()` is not
invoked, contradicting the claim that a failed authorization escalates
to full shutdown. -/
theorem C7_auth_failure_counterexample :
    on_source_message (MT5BotState.mk true true true (some "SRC1") (some "DST1"))
        ⟨some false, none, none, none, none, some "InvalidToken"⟩ 0
      = (MT5BotState.mk true true true (some "SRC1") (some "DST1"), [], [])
    ∧ (MT5BotState.mk true true true (some "SRC1") (some "DST1")).should_run = true
    ∧ true ≠ false :=
  ⟨by decide, by decide, by decide⟩

/-- C7 (amended): a failed authorization is ignored rather than fatal:
neither handler invokes `stop()` or changes any state — both sessions
stay as they were — although, on the source side, no account-list
request, subscription, or replication command is issued in response to
the failed authorization (and likewise nothing is sent on the
destination side). -/
theorem C7_auth_failure_ignored :
    (∀ (st : MT5BotState) (msg : SourceMsg) (rid : Nat),
        msg.authorize ≠ some true → msg.mt5_login_list = none →
        msg.transaction = none → msg.mt5_get_positions = none →
        msg.mt5_get_orders = none →
        on_source_message st msg rid = (st, [], []))
    ∧ (∀ (st : MT5BotState) (msg : DestinationMsg),
        msg.authorize ≠ some true → msg.mt5_login_list = none →
        msg.mt5_new_order = none →
        on_destination_message st msg = (st, [], [])) := by
  constructor
  · intro st msg rid h1 h2 h3 h4 h5
    simp [on_source_message, h1, h2, h3, h4, h5]
  · intro st msg h1 h2 h3
    simp [on_destination_message, h1, h2, h3]

/-- Witness for C7 (amended) at a concrete failed-authorization message
on each side. -/
theorem C7_auth_failure_ignored_witness :
    on_source_message (MT5BotState.mk true true true (some "SRC1") (some "DST1"))
        ⟨some false, none, none, none, none, some "tokenError"⟩ 0
      = (MT5BotState.mk true true true (some "SRC1") (some "DST1"), [], [])
    ∧ on_destination_message (MT5BotState.mk true true true (some "SRC1") (some "DST1"))
        ⟨some false, none, none, some "tokenError"⟩
      = (MT5BotState.mk true true true (some "SRC1") (some "DST1"), [], []) :=
  ⟨C7_auth_failure_ignored.1 (MT5BotState.mk true true true (some "SRC1") (some "DST1"))
     ⟨some false, none, none, none, none, some "tokenError"⟩ 0
     (by decide) rfl rfl rfl rfl,
   C7_auth_failure_ignored.2 (MT5BotState.mk true true true (some "SRC1") (some "DST1"))
     ⟨some false, none, none, some "tokenError"⟩
     (by decide) rfl rfl⟩

/-- C9: when the destination connection is absent or the destination
account number is unresolved (`None` or empty), `replicate_mt5_trade`
and `replicate_mt5_order` send zero messages on the destination
connection and return normally with exactly one error log naming the
failed guard; hence no trade command is emitted before a destination
account has been resolved. -/
theorem C9_guarded_replication :
    ∀ (st : MT5BotState) (pos : MT5Position) (rid : Nat),
      (st.destination_ws = false ∨ st.destination_account_number = none
        ∨ st.destination_account_number = some "") →
      (replicate_mt5_trade st pos rid).1 = []
      ∧ ((replicate_mt5_trade st pos rid).2 = [BotLog.destConnectionUnavailable]
          ∨ (replicate_mt5_trade st pos rid).2 = [BotLog.destAccountNotSet])
      ∧ (replicate_mt5_order st pos).1 = []
      ∧ ((replicate_mt5_order st pos).2 = [BotLog.destConnectionUnavailable]
          ∨ (replicate_mt5_order st pos).2 = [BotLog.destAccountNotSet]) := by
  intro st pos rid h
  have hguard : st.destination_ws = false
      ∨ truthyS st.destination_account_number = false := by
    rcases h with h | h | h
    · exact Or.inl h
    · right; simp [truthyS, h]
    · right; simp [truthyS, h]
  rcases hguard with hg | hg
  · simp [replicate_mt5_trade, replicate_mt5_order, hg]
  · by_cases hws : st.destination_ws = false
    · simp [replicate_mt5_trade, replicate_mt5_order, hws]
    · have hws' : st.destination_ws = true := by
        cases hb : st.destination_ws
        · exact absurd hb hws
        · rfl
      simp [replicate_mt5_trade, replicate_mt5_order, hws', hg]

/-- Witness for C9: an unresolved destination account with a live
destination socket. -/
theorem C9_guarded_replication_witness :
    ((MT5BotState.mk true true true (some "SRC1") none).destination_ws = false
      ∨ (MT5BotState.mk true true true (some "SRC1") none).destination_account_number = none
      ∨ (MT5BotState.mk true true true (some "SRC1") none).destination_account_number
          = some "")
    ∧ (replicate_mt5_trade (MT5BotState.mk true true true (some "SRC1") none)
        ⟨"EURUSD", "buy", 1, 2, none, none, none, none, none⟩ 0).1 = []
    ∧ (replicate_mt5_order (MT5BotState.mk true true true (some "SRC1") none)
        ⟨"EURUSD", "buy", 1, 2, none, none, none, none, none⟩).1 = [] :=
  ⟨Or.inr (Or.inl rfl),
   (C9_guarded_replication (MT5BotState.mk true true true (some "SRC1") none)
     ⟨"EURUSD", "buy", 1, 2, none, none, none, none, none⟩ 0
     (Or.inr (Or.inl rfl))).1,
   (C9_guarded_replication (MT5BotState.mk true true true (some "SRC1") none)
     ⟨"EURUSD", "buy", 1, 2, none, none, none, none, none⟩ 0
     (Or.inr (Or.inl rfl))).2.2.1⟩
